import Mathlib

/-!
Verification of the digital-product upload backend (`src/server.js`).

The development shallowly embeds the `/api/upload` handler's pure decision
logic: the file-mode reconciliation loop (lines 516-591), the mode-switch
migration setup (lines 474-504), the orphan-key cleanup (lines 598-605),
the surrounding request-level control flow (parse / duplicate-check /
lookup / persist), and the Shopify tag-merge logic of
`updateProductTagsInShopify` (lines 324-391).

Modelling conventions:
  - JavaScript strings that may be `undefined` are modelled as `String`
    with `""` for absence; every use site in the source only tests
    truthiness (`x || y`), for which `""` and `undefined` behave alike.
  - Numeric fields are `Nat` with `0` for absence, matching `x || 0`.
  - `a || b` on strings is `strOr a b`, on numbers `natOr a b`.
  - A trailing `|| ""` (resp. `|| 0`) after a total `String` (resp. `Nat`)
    expression is the identity in this model and is dropped.
  - Exceptions thrown inside the handler's `try` are `Except.error`,
    routed by the final `catch` to an HTTP 500 outcome.
-/

/-- One variant record, both as submitted in `productData.variants[i]`
and as stored in Mongo (`DigitalProductSchema.variants`). -/
structure Variant where
  id : String
  sku : String
  title : String
  image : String
  fileKey : String
  download : Nat
  fileUrl : String
  fileName : String
  fileSize : Nat
deriving DecidableEq, Repr

/-- Result of a successful S3 upload (`uploadFileStreamToS3` return value,
restricted to the fields the reconciliation loop reads). -/
structure UploadedFile where
  key : String
  url : String
  name : String
  size : Nat
deriving DecidableEq, Repr

/-- One entry of `variantFileMap`: built in the handler from a
`variantFiles[<id>]` form field whose uploads succeeded. -/
structure VariantUpload where
  id : String
  file : List UploadedFile
deriving DecidableEq, Repr

/-- The parsed `productData` JSON submission. -/
structure ProductData where
  id : Option String
  productId : String
  title : String
  productImage : String
  status : String
  fileType : String
  totalVariants : Nat
  variants : List Variant
deriving DecidableEq, Repr

/-- The `productObject` handed to `saveDigitalProduct`; also the shape of a
previously stored product (`existingProduct` from `DigitalProduct.findById`). -/
structure SavedProduct where
  name : String
  productId : String
  productImage : String
  status : String
  variants : List Variant
  fileType : String
  totalVariants : Nat
deriving DecidableEq, Repr

/-- JavaScript `a || b` for strings ("" is the only falsy string). -/
def strOr (a b : String) : String := if a = "" then b else a

/-- JavaScript `a || b` for numbers in our Nat model (0 is falsy). -/
def natOr (a b : Nat) : Nat := if a = 0 then b else a

/-- The mode ternary `fileType === "commonFile" ? "common" : "variant"`
used for both `newMode` (line 453) and `oldMode` (line 461). -/
def modeOf (fileType : String) : String :=
  if fileType = "commonFile" then "common" else "variant"

/-- The handler's `oldMode`: `null` in add mode, otherwise derived from the
stored product's `fileType` (server.js line 461). -/
def computeOldMode (existing : Option SavedProduct) : Option String :=
  existing.map (fun ex => modeOf ex.fileType)

/-- Whether new files were supplied for the target mode
(server.js lines 475-477). -/
def hasNewFiles (pd : ProductData) (cf : List UploadedFile)
    (vfm : List VariantUpload) : Bool :=
  if modeOf pd.fileType = "common" then !cf.isEmpty
  else vfm.any (fun vm => !vm.file.isEmpty)

/-- Mode-switch migration setup (server.js lines 468-504): when updating
with `oldMode ≠ newMode` and no new files for the target mode, switching
variant→common picks the first existing variant with a non-empty `fileKey`
as the migrated common file.  Switching common→variant needs no setup here
(it is handled inside the loop).  Returns the chosen existing variant. -/
def computeMigrated (existing : Option SavedProduct) (pd : ProductData)
    (cf : List UploadedFile) (vfm : List VariantUpload) : Option Variant :=
  match existing with
  | none => none
  | some ex =>
    if modeOf ex.fileType ≠ modeOf pd.fileType then
      if !(hasNewFiles pd cf vfm) then
        if modeOf pd.fileType = "common" ∧ modeOf ex.fileType = "variant" then
          ex.variants.find? (fun ev => ev.fileKey != "")
        else none
      else none
    else none

/-- Common-mode "no change" fallback (server.js lines 540-547):
`oldV = existingProduct?.variants.find(ev => ev.id === v.id) || existingProduct?.variants[0]`,
then each file field independently falls back `v.X || oldV?.X || default`. -/
def commonModeFallback (existing : Option SavedProduct) (v : Variant) :
    String × String × String × Nat :=
  let oldV : Option Variant :=
    match existing with
    | none => none
    | some ex =>
      match ex.variants.find? (fun ev => ev.id == v.id) with
      | some m => some m
      | none => ex.variants.head?
  (strOr v.fileKey ((oldV.map Variant.fileKey).getD ""),
   strOr v.fileUrl ((oldV.map Variant.fileUrl).getD ""),
   strOr v.fileName ((oldV.map Variant.fileName).getD ""),
   natOr v.fileSize ((oldV.map Variant.fileSize).getD 0))

/-- Per-variant-mode "no change" fallback (server.js lines 569-575):
like `commonModeFallback` but `oldV` has no `variants[0]` default. -/
def perVariantFallback (existing : Option SavedProduct) (v : Variant) :
    String × String × String × Nat :=
  let oldV := existing.bind (fun ex => ex.variants.find? (fun ev => ev.id == v.id))
  (strOr v.fileKey ((oldV.map Variant.fileKey).getD ""),
   strOr v.fileUrl ((oldV.map Variant.fileUrl).getD ""),
   strOr v.fileName ((oldV.map Variant.fileName).getD ""),
   natOr v.fileSize ((oldV.map Variant.fileSize).getD 0))

/-- The guard of the common→variant migrated branch (server.js line 560):
`existingProduct && oldMode === "common" && oldMode !== newMode`. -/
def commonToVariantSwitch (existing : Option SavedProduct) (pd : ProductData) : Bool :=
  match existing with
  | none => false
  | some ex =>
    modeOf ex.fileType == "common" && modeOf ex.fileType != modeOf pd.fileType

/-- Body of the common→variant migrated branch (server.js lines 561-567):
`fileKey = oldCommonFile?.fileKey || v.fileKey || ""` etc., with
`oldCommonFile = existingProduct.variants[0]`. -/
def migratedFromCommonQuad (existing : Option SavedProduct) (v : Variant) :
    String × String × String × Nat :=
  let oldCommonFile := existing.bind (fun ex => ex.variants.head?)
  (strOr ((oldCommonFile.map Variant.fileKey).getD "") v.fileKey,
   strOr ((oldCommonFile.map Variant.fileUrl).getD "") v.fileUrl,
   strOr ((oldCommonFile.map Variant.fileName).getD "") v.fileName,
   natOr ((oldCommonFile.map Variant.fileSize).getD 0) v.fileSize)

/-- Per-variant mode, no new upload for this variant
(server.js lines 560-576). -/
def perVariantNoUpload (existing : Option SavedProduct) (pd : ProductData)
    (v : Variant) : String × String × String × Nat :=
  if commonToVariantSwitch existing pd then migratedFromCommonQuad existing v
  else perVariantFallback existing v

/-- Assembly of the finalized `variantObject` (server.js lines 579-589).
`download: v.download || 0` is `v.download` in the Nat model. -/
def mkVariantObject (pd : ProductData) (v : Variant)
    (q : String × String × String × Nat) : Variant :=
  { id := v.id
    sku := v.sku
    title := if pd.totalVariants = 1 then pd.title else v.title
    image := if pd.totalVariants = 1 then pd.productImage else v.image
    fileKey := q.1
    download := v.download
    fileUrl := q.2.1
    fileName := q.2.2.1
    fileSize := q.2.2.2 }

/-- Resolution of a single incoming variant (one iteration of the loop at
server.js lines 516-591).  `migrated` is the loop-invariant migrated common
file computed once before the loop; the `else if (migratedCommonKey)` test
is a truthiness test on its key. -/
def resolveOne (existing : Option SavedProduct) (pd : ProductData)
    (cf : List UploadedFile) (vfm : List VariantUpload)
    (migrated : Option Variant) (v : Variant) : Variant :=
  let q :=
    if pd.fileType = "commonFile" then
      match cf with
      | u :: _ => (u.key, u.url, u.name, u.size)
      | [] =>
        match migrated with
        | some m =>
          if m.fileKey != "" then (m.fileKey, m.fileUrl, m.fileName, m.fileSize)
          else commonModeFallback existing v
        | none => commonModeFallback existing v
    else
      match vfm.find? (fun vm => vm.id == v.id) with
      | some vm =>
        match vm.file with
        | u :: _ => (u.key, u.url, u.name, u.size)
        | [] => perVariantNoUpload existing pd v
      | none => perVariantNoUpload existing pd v
  mkVariantObject pd v q

/-- The full reconciliation: the handler's loop over `productData.variants`,
with the migrated common file computed once per request. -/
def resolveVariants (existing : Option SavedProduct) (pd : ProductData)
    (cf : List UploadedFile) (vfm : List VariantUpload) : List Variant :=
  pd.variants.map (resolveOne existing pd cf vfm (computeMigrated existing pd cf vfm))

/-- The `productObject` built by the handler (server.js lines 506-514),
with its `variants` filled in by the loop. -/
def mkProductObject (pd : ProductData) (finalized : List Variant) : SavedProduct :=
  { name := pd.title
    productId := pd.productId
    productImage := pd.productImage
    status := pd.status
    variants := finalized
    fileType := if pd.fileType = "commonFile" then "common" else "variant"
    totalVariants := pd.totalVariants }

/-- `new Set(variants.map(v => v.fileKey).filter(k => k))` (server.js
lines 600-601), as a `Finset`. -/
def fileKeySet (vs : List Variant) : Finset String :=
  ((vs.map Variant.fileKey).filter (fun k => k != "")).toFinset

/-- `[...oldFileKeys].filter(key => !newFileKeys.has(key))` (server.js
line 602): the keys handed to `deleteOldFileFromDO`. -/
def toDeleteSet (ex : SavedProduct) (finalized : List Variant) : Finset String :=
  (fileKeySet ex.variants).filter (fun k => k ∉ fileKeySet finalized)

/-- Outcome of one `/api/upload` request: HTTP status, error body if any,
the product handed to `saveDigitalProduct` if reached, and the blob keys
handed to deletion. -/
structure HandlerOutcome where
  status : Nat
  error : Option String
  saved : Option SavedProduct
  deleted : Finset String
deriving DecidableEq

/-- The `/api/upload` handler's pure decision flow (server.js
lines 396-657).  `field` is the `productData` form field: `none` when
missing (early 400, line 406); `some (.error e)` when present but
`JSON.parse` throws (line 410), which the final catch turns into a 500
(lines 653-656); `duplicate` is the result of the `findOne` duplicate
check (400, line 419); `existingDb` is what `findById` returns in update
mode (a miss throws "Existing product not found", caught as 500).
Storefront sync failures never change the outcome (non-fatal), and
deletion only runs in update mode (line 599). -/
def handleUpload (field : Option (Except String ProductData)) (duplicate : Bool)
    (existingDb : Option SavedProduct)
    (cf : List UploadedFile) (vfm : List VariantUpload) : HandlerOutcome :=
  match field with
  | none =>
    { status := 400, error := some "Missing productData field", saved := none, deleted := ∅ }
  | some (Except.error e) =>
    { status := 500, error := some e, saved := none, deleted := ∅ }
  | some (Except.ok pd) =>
    if duplicate then
      { status := 400, error := some "Product already exists", saved := none, deleted := ∅ }
    else
      match pd.id with
      | some _ =>
        match existingDb with
        | none =>
          { status := 500, error := some "Existing product not found"
            saved := none, deleted := ∅ }
        | some ex =>
          let finalized := resolveVariants (some ex) pd cf vfm
          { status := 200, error := none
            saved := some (mkProductObject pd finalized)
            deleted := toDeleteSet ex finalized }
      | none =>
        let finalized := resolveVariants none pd cf vfm
        { status := 200, error := none
          saved := some (mkProductObject pd finalized), deleted := ∅ }

/-- `Array.from(new Set(list))`: first-occurrence deduplication preserving
insertion order, as used on tag lists (server.js line 360). -/
def jsSetDedup : List String → List String
  | [] => []
  | a :: l => a :: (jsSetDedup l).filter (fun b => b != a)

/-- Outcome of `updateProductTagsInShopify` (server.js lines 324-391) on
its success path (product found, GraphQL mutation succeeds): reported
status and tags, whether the `productUpdate` mutation was sent, and the
product's tags afterwards. -/
structure TagsOutcome where
  status : Bool
  tags : List String
  mutated : Bool
  finalTags : List String
deriving DecidableEq, Repr

/-- The tag-merge logic of `updateProductTagsInShopify`: empty `newTags`
short-circuits (line 326); otherwise union via `new Set` (line 360) and
skip the mutation when nothing changed (line 364). -/
def updateProductTagsInShopify (currentTags newTags : List String) : TagsOutcome :=
  if newTags.isEmpty then
    { status := false, tags := [], mutated := false, finalTags := currentTags }
  else
    let updatedTags := jsSetDedup (currentTags ++ newTags)
    if updatedTags.length = currentTags.length ∧ ∀ t ∈ updatedTags, t ∈ currentTags then
      { status := true, tags := updatedTags, mutated := false, finalTags := currentTags }
    else
      { status := true, tags := updatedTags, mutated := true, finalTags := updatedTags }

/-! ### Spec-side definitions used to compare the code against claim wording -/

/-- Modelled from the spec claim wording (C2): the previous file mode is
Common iff every previous variant shares one non-empty `fileKey` (a single
previous variant with a file counts as Common).  This matches the inference
in `handleModeAndUploadDeletes` (src/unnamed/part_001 lines 109-114), which
the live handler does not use. -/
def specPrevModeCommon (vs : List Variant) : Bool :=
  match vs with
  | [] => false
  | v0 :: _ => (v0.fileKey != "") && vs.all (fun v => v.fileKey == v0.fileKey)

/-- Modelled from the spec claim wording (C3): the common→variant
mode-switch fallback additionally gated by a once-per-request check that
no per-variant upload was supplied at all. -/
def perVariantNoUploadSpecGated (existing : Option SavedProduct) (pd : ProductData)
    (vfm : List VariantUpload) (v : Variant) : String × String × String × Nat :=
  if commonToVariantSwitch existing pd && !(vfm.any (fun vm => !vm.file.isEmpty)) then
    migratedFromCommonQuad existing v
  else perVariantFallback existing v

/-- Modelled from the spec claim wording (C3): `resolveOne` with the
once-per-request gate on the common→variant fallback. -/
def resolveOneSpecGated (existing : Option SavedProduct) (pd : ProductData)
    (cf : List UploadedFile) (vfm : List VariantUpload)
    (migrated : Option Variant) (v : Variant) : Variant :=
  let q :=
    if pd.fileType = "commonFile" then
      match cf with
      | u :: _ => (u.key, u.url, u.name, u.size)
      | [] =>
        match migrated with
        | some m =>
          if m.fileKey != "" then (m.fileKey, m.fileUrl, m.fileName, m.fileSize)
          else commonModeFallback existing v
        | none => commonModeFallback existing v
    else
      match vfm.find? (fun vm => vm.id == v.id) with
      | some vm =>
        match vm.file with
        | u :: _ => (u.key, u.url, u.name, u.size)
        | [] => perVariantNoUploadSpecGated existing pd vfm v
      | none => perVariantNoUploadSpecGated existing pd vfm v
  mkVariantObject pd v q

/-- Modelled from the spec claim wording (C3): reconciliation with the
once-per-request gate. -/
def resolveVariantsSpecGated (existing : Option SavedProduct) (pd : ProductData)
    (cf : List UploadedFile) (vfm : List VariantUpload) : List Variant :=
  pd.variants.map
    (resolveOneSpecGated existing pd cf vfm (computeMigrated existing pd cf vfm))

/-- The four file fields of a variant record, as one tuple. -/
def fileQuad (v : Variant) : String × String × String × Nat :=
  (v.fileKey, v.fileUrl, v.fileName, v.fileSize)

/-- The four fields of an uploaded file, as one tuple. -/
def uploadQuad (u : UploadedFile) : String × String × String × Nat :=
  (u.key, u.url, u.name, u.size)

/-- Whether a finalized variant `w`'s file-field quadruple originates whole
from one single source available to the resolution of submitted variant
`v`: some upload in the request, the submitted variant itself, some
previously stored variant, or the empty/zero defaults (C5's wording). -/
def quadFromSingleSource (existing : Option SavedProduct)
    (cf : List UploadedFile) (vfm : List VariantUpload)
    (v w : Variant) : Bool :=
  cf.any (fun u => fileQuad w == uploadQuad u)
  || vfm.any (fun vm => vm.file.any (fun u => fileQuad w == uploadQuad u))
  || (fileQuad w == fileQuad v)
  || (match existing with
      | none => false
      | some ex => ex.variants.any (fun p => fileQuad w == fileQuad p))
  || (fileQuad w == ("", "", "", 0))

/-! ### Concrete records used to evaluate the model on specific requests -/

/-- Helper to build a concrete variant record. -/
def mkV (id fileKey fileUrl fileName : String) (fileSize download : Nat) : Variant :=
  { id := id, sku := "sku", title := "vtitle", image := "vimage"
    fileKey := fileKey, download := download, fileUrl := fileUrl
    fileName := fileName, fileSize := fileSize }

/-- Helper to build a concrete stored product. -/
def mkStored (fileType : String) (vs : List Variant) : SavedProduct :=
  { name := "p", productId := "gid://shopify/Product/1", productImage := "pi"
    status := "active", variants := vs, fileType := fileType
    totalVariants := vs.length }

/-- A previously stored product whose variants all share the non-empty key
`"k1"` but whose stored `fileType` is `"common"` (the literal this system
itself persists). -/
def exC2 : SavedProduct := mkStored "common" [mkV "v1" "k1" "u1" "n1" 1 0]

/-- Stored product for the C3 scenario: legacy `fileType = "commonFile"`,
two variants sharing key `"k1"`. -/
def exC3 : SavedProduct :=
  mkStored "commonFile" [mkV "v1" "k1" "u1" "n1" 1 0, mkV "v2" "k1" "u1" "n1" 1 0]

/-- Incoming update for the C3 counterexample: switch to per-variant mode;
`v1` is retained and `v3` is new with empty file fields. -/
def pdC3 : ProductData :=
  { id := some "m1", productId := "gid://shopify/Product/1", title := "T"
    productImage := "I", status := "active", fileType := "variant"
    totalVariants := 2
    variants := [mkV "v1" "" "" "" 0 0, mkV "v3" "" "" "" 0 0] }

/-- A per-variant upload for `v1` only, supplied in the same request. -/
def vfmC3 : List VariantUpload :=
  [{ id := "v1", file := [{ key := "k2", url := "u2", name := "n2", size := 4 }] }]

/-- Creation request for the C4 counterexample: one variant with a full
non-empty file quadruple, `totalVariants = 1`, and a variant title that
differs from the product title. -/
def pdC4 : ProductData :=
  { id := none, productId := "gid://shopify/Product/1", title := "Prod"
    productImage := "PI", status := "active", fileType := "variant"
    totalVariants := 1, variants := [mkV "v1" "k" "u" "n" 3 0] }

/-- Stored product for the C5 counterexample (same mode, no uploads). -/
def exC5 : SavedProduct := mkStored "commonFile" [mkV "v1" "kOld" "uOld" "nOld" 9 0]

/-- Submitted variant for the C5 counterexample: empty `fileKey` but a
non-empty `fileUrl` of its own. -/
def vC5 : Variant := mkV "v1" "" "uNew" "" 0 0

/-- Incoming update for the C5 counterexample. -/
def pdC5 : ProductData :=
  { id := some "m1", productId := "gid://shopify/Product/1", title := "T"
    productImage := "I", status := "active", fileType := "commonFile"
    totalVariants := 2, variants := [vC5] }

/-- Stored product for the C7 counterexample: the stored download counter
is 5. -/
def exC7 : SavedProduct := mkStored "variant" [mkV "v1" "k1" "u1" "n1" 1 5]

/-- Incoming update for the C7 counterexample: the submission carries
download 7 for the same variant. -/
def pdC7 : ProductData :=
  { id := some "m1", productId := "gid://shopify/Product/1", title := "T"
    productImage := "I", status := "active", fileType := "variant"
    totalVariants := 2, variants := [mkV "v1" "k1" "u1" "n1" 1 7] }

/-- Stored product for the C1 witness: keys `"k1"` and `"k2"`. -/
def exW1 : SavedProduct :=
  mkStored "variant" [mkV "a" "k1" "u1" "n1" 1 0, mkV "b" "k2" "u2" "n2" 2 0]

/-- Update for the C1 witness: keeps only variant `b` (key `"k2"`). -/
def pdW1 : ProductData :=
  { id := some "m1", productId := "gid://shopify/Product/1", title := "T"
    productImage := "I", status := "active", fileType := "variant"
    totalVariants := 2, variants := [mkV "b" "k2" "u2" "n2" 2 0] }

/-- Creation request for the C4 witness: `totalVariants = 2`, full file
quadruple on the single submitted variant, no uploads. -/
def pdW4 : ProductData :=
  { id := none, productId := "gid://shopify/Product/1", title := "Prod"
    productImage := "PI", status := "active", fileType := "variant"
    totalVariants := 2, variants := [mkV "v1" "k" "u" "n" 3 0] }

/-- Common upload for the C5 witness. -/
def uW5 : UploadedFile := { key := "kNew", url := "uNewest", name := "nNew", size := 7 }

/-- Common-mode creation request for the C5 witness. -/
def pdW5 : ProductData :=
  { id := none, productId := "gid://shopify/Product/1", title := "T"
    productImage := "I", status := "active", fileType := "commonFile"
    totalVariants := 2, variants := [mkV "v1" "" "" "" 0 0] }

/-- Creation request for the C9 witness (common mode). -/
def pdW9 : ProductData :=
  { id := none, productId := "gid://shopify/Product/1", title := "T"
    productImage := "I", status := "active", fileType := "commonFile"
    totalVariants := 1, variants := [mkV "v1" "k" "u" "n" 3 0] }

/-- Stored product for the C10 witness: legacy common-mode record with
variants `v1`, `v2` sharing key `"k1"`. -/
def exW10 : SavedProduct :=
  mkStored "commonFile" [mkV "v1" "k1" "u1" "n1" 1 0, mkV "v2" "k1" "u1" "n1" 1 0]

/-- Common-mode update for the C10 witness: one new variant `vNew` with
empty file fields, no uploads. -/
def pdW10 : ProductData :=
  { id := some "m1", productId := "gid://shopify/Product/1", title := "T"
    productImage := "I", status := "active", fileType := "commonFile"
    totalVariants := 2, variants := [mkV "vNew" "" "" "" 0 0] }

/-! ### Helper lemmas -/

theorem mem_fileKeySet {k : String} {vs : List Variant} :
    k ∈ fileKeySet vs ↔ (∃ w ∈ vs, w.fileKey = k) ∧ k ≠ "" := by
  simp only [fileKeySet, List.mem_toFinset, List.mem_filter, List.mem_map, bne_iff_ne]

theorem map_eq_self_of_eq {α : Type} {f : α → α} :
    ∀ {l : List α}, (∀ x ∈ l, f x = x) → l.map f = l
  | [], _ => rfl
  | x :: xs, h => by
    simp only [List.map_cons, List.cons.injEq]
    exact ⟨h x (List.mem_cons_self x xs),
      map_eq_self_of_eq (fun y hy => h y (List.mem_cons_of_mem x hy))⟩

/-! ### Claim C1: orphan deletion set -/

/-- C1: for every update of an existing product, the set of blob keys
handed to deletion equals the set of file keys referenced by the previous
product's variants minus the set referenced by the finalized variant list,
and consequently never contains a key still referenced by some finalized
variant. -/
theorem deletion_set_is_difference (pd : ProductData) (ex : SavedProduct)
    (cf : List UploadedFile) (vfm : List VariantUpload) (s : String)
    (hid : pd.id = some s) :
    (handleUpload (some (Except.ok pd)) false (some ex) cf vfm).deleted
        = fileKeySet ex.variants \ fileKeySet (resolveVariants (some ex) pd cf vfm)
    ∧ ∀ k ∈ (handleUpload (some (Except.ok pd)) false (some ex) cf vfm).deleted,
        ∀ w ∈ resolveVariants (some ex) pd cf vfm, w.fileKey ≠ k := by
  have hdel : (handleUpload (some (Except.ok pd)) false (some ex) cf vfm).deleted
      = toDeleteSet ex (resolveVariants (some ex) pd cf vfm) := by
    simp only [handleUpload, hid, Bool.false_eq_true, if_false]
  rw [hdel]
  constructor
  · apply Finset.ext
    intro a
    simp [toDeleteSet, Finset.mem_filter, Finset.mem_sdiff]
  · intro k hk w hw hkey
    rw [toDeleteSet, Finset.mem_filter] at hk
    obtain ⟨hold, hnot⟩ := hk
    have hne : k ≠ "" := (mem_fileKeySet.mp hold).2
    exact hnot (mem_fileKeySet.mpr ⟨⟨w, hw, hkey⟩, hne⟩)

/-- C1 witness: a concrete update dropping variant `a`; the conclusion is
discharged by the theorem at this input. -/
theorem deletion_set_is_difference_witness :
    (handleUpload (some (Except.ok pdW1)) false (some exW1) [] []).deleted
        = fileKeySet exW1.variants \ fileKeySet (resolveVariants (some exW1) pdW1 [] [])
    ∧ ∀ k ∈ (handleUpload (some (Except.ok pdW1)) false (some exW1) [] []).deleted,
        ∀ w ∈ resolveVariants (some exW1) pdW1 [] [], w.fileKey ≠ k :=
  deletion_set_is_difference pdW1 exW1 [] [] "m1" rfl

/-! ### Claim C6: unparseable productData -/

/-- C6 counterexample: a request whose `productData` field is present but
is not parseable JSON is answered with HTTP 500 via the generic catch
(server.js lines 653-656), not HTTP 400 as claimed. -/
theorem unparseable_productData_counterexample :
    (handleUpload (some (Except.error "Unexpected token")) false none [] []).status = 500
    ∧ (handleUpload (some (Except.error "Unexpected token")) false none [] []).status ≠ 400 :=
  ⟨rfl, by decide⟩

/-- C6 (amended): for every request whose `productData` field is present
but not parseable JSON, the response is HTTP 500 with an error body, and
no product is persisted and no blob key is deleted. -/
theorem unparseable_productData_yields_500 (e : String) (duplicate : Bool)
    (existingDb : Option SavedProduct) (cf : List UploadedFile)
    (vfm : List VariantUpload) :
    handleUpload (some (Except.error e)) duplicate existingDb cf vfm
      = { status := 500, error := some e, saved := none, deleted := ∅ } := rfl

/-! ### Claim C7: download counter -/

/-- C7 counterexample: an update whose stored counter is 5 while the
submission carries 7 finalizes the counter at 7; the previously stored
value 5 is not preserved. -/
theorem download_counterexample :
    ((resolveVariants (some exC7) pdC7 [] [])[0]?).map Variant.download = some 7
    ∧ (exC7.variants[0]?).map Variant.download = some 5
    ∧ (7 : Nat) ≠ 5 := by
  refine ⟨by decide, by decide, by decide⟩

/-- C7 (amended): the finalized download counter always equals the
submitted variant's download value (with 0 for an absent field); the
previously stored counter is never consulted by the reconciliation loop. -/
theorem download_taken_from_submission (existing : Option SavedProduct)
    (pd : ProductData) (cf : List UploadedFile) (vfm : List VariantUpload) (i : Nat) :
    ((resolveVariants existing pd cf vfm)[i]?).map Variant.download
      = (pd.variants[i]?).map Variant.download := by
  simp only [resolveVariants, List.getElem?_map]
  cases pd.variants[i]? with
  | none => rfl
  | some v => rfl

/-! ### Claim C2: previous-mode determination -/

/-- C2 counterexample: a stored product whose single variant has the
non-empty key `"k1"` (so the claimed shared-key rule says Common) but whose
stored `fileType` is `"common"`, for which the handler's old-mode ternary
(server.js line 461) yields `"variant"`. -/
theorem previous_mode_counterexample :
    specPrevModeCommon exC2.variants = true
    ∧ computeOldMode (some exC2) = some "variant"
    ∧ ("variant" : String) ≠ "common" :=
  ⟨by decide, by decide, by decide⟩

/-- C2 (amended): the previous file mode is absent when there is no
previous product, and otherwise is Common if and only if the stored
`fileType` equals the literal `"commonFile"` — it is computed from the
stored `fileType` alone and is independent of the previous variants'
file keys. -/
theorem previous_mode_from_stored_fileType :
    computeOldMode none = none
    ∧ (∀ ex : SavedProduct, computeOldMode (some ex)
        = some (if ex.fileType = "commonFile" then "common" else "variant"))
    ∧ ∀ (ex : SavedProduct) (vs : List Variant),
        computeOldMode (some { ex with variants := vs }) = computeOldMode (some ex) :=
  ⟨rfl, fun _ => rfl, fun _ _ => rfl⟩

/-! ### Claim C9: persisted fileType invariant -/

/-- C9: every product record persisted by the save path stores `fileType`
`"common"` or `"variant"`, never `"commonFile"`; consequently on any
subsequent update of such a record the old mode computes to `"variant"`
and the common→per-variant migration guard (server.js line 560) is false
for every request, making that branch unreachable across two saves. -/
theorem saved_fileType_disables_common_migration
    (field : Option (Except String ProductData)) (duplicate : Bool)
    (existingDb : Option SavedProduct) (cf : List UploadedFile)
    (vfm : List VariantUpload) (sp : SavedProduct)
    (hsaved : (handleUpload field duplicate existingDb cf vfm).saved = some sp) :
    (sp.fileType = "common" ∨ sp.fileType = "variant")
    ∧ sp.fileType ≠ "commonFile"
    ∧ computeOldMode (some sp) = some "variant"
    ∧ ∀ pd' : ProductData, commonToVariantSwitch (some sp) pd' = false := by
  have hft : ∃ pd : ProductData,
      sp.fileType = if pd.fileType = "commonFile" then "common" else "variant" := by
    rcases field with _ | pe
    · simp [handleUpload] at hsaved
    · rcases pe with e | pd
      · simp [handleUpload] at hsaved
      · refine ⟨pd, ?_⟩
        cases duplicate
        · rcases hpd : pd.id with _ | s
          · simp only [handleUpload, Bool.false_eq_true, if_false, hpd,
              Option.some.injEq] at hsaved
            subst hsaved
            rfl
          · rcases existingDb with _ | ex
            · simp [handleUpload, hpd] at hsaved
            · simp only [handleUpload, Bool.false_eq_true, if_false, hpd,
                Option.some.injEq] at hsaved
              subst hsaved
              rfl
        · simp [handleUpload] at hsaved
  obtain ⟨pd0, hft⟩ := hft
  have h2 : sp.fileType = "common" ∨ sp.fileType = "variant" := by
    by_cases h : pd0.fileType = "commonFile" <;> simp [hft, h]
  have h3 : sp.fileType ≠ "commonFile" := by
    rcases h2 with h | h <;> simp [h]
  refine ⟨h2, h3, ?_, ?_⟩
  · simp [computeOldMode, modeOf, h3]
  · intro pd'
    simp [commonToVariantSwitch, modeOf, h3]

/-- C9 witness: a concrete creation request; the persisted record stores
`fileType = "common"` and the migration guard is disabled on it. -/
theorem saved_fileType_witness :
    ((mkProductObject pdW9 (resolveVariants none pdW9 [] [])).fileType = "common"
      ∨ (mkProductObject pdW9 (resolveVariants none pdW9 [] [])).fileType = "variant")
    ∧ (mkProductObject pdW9 (resolveVariants none pdW9 [] [])).fileType ≠ "commonFile"
    ∧ computeOldMode (some (mkProductObject pdW9 (resolveVariants none pdW9 [] [])))
        = some "variant"
    ∧ ∀ pd' : ProductData,
        commonToVariantSwitch (some (mkProductObject pdW9 (resolveVariants none pdW9 [] []))) pd'
          = false :=
  saved_fileType_disables_common_migration (some (Except.ok pdW9)) false none [] []
    (mkProductObject pdW9 (resolveVariants none pdW9 [] [])) rfl

/-! ### Claim C10: common-mode fallback to the first previous variant -/

/-- C10: in common mode with no new common upload and no mode-switch
migration, a submitted variant with empty file fields whose id matches no
previous variant inherits the file fields of the first previous variant
(`existingProduct.variants[0]`, server.js line 542) rather than the
empty/zero defaults. -/
theorem common_mode_inherits_first_previous (ex : SavedProduct) (pd : ProductData)
    (vfm : List VariantUpload) (i : Nat) (v v0 : Variant) (rest : List Variant)
    (hmode : pd.fileType = "commonFile") (hex : ex.fileType = "commonFile")
    (hvars : ex.variants = v0 :: rest)
    (hv : pd.variants[i]? = some v)
    (hk : v.fileKey = "") (hu : v.fileUrl = "") (hn : v.fileName = "")
    (hs : v.fileSize = 0)
    (hid : ∀ ev ∈ ex.variants, ev.id ≠ v.id) :
    ∃ w, (resolveVariants (some ex) pd [] vfm)[i]? = some w
      ∧ w.fileKey = v0.fileKey ∧ w.fileUrl = v0.fileUrl
      ∧ w.fileName = v0.fileName ∧ w.fileSize = v0.fileSize := by
  have hmig : computeMigrated (some ex) pd [] vfm = none := by
    simp [computeMigrated, modeOf, hex, hmode]
  refine ⟨resolveOne (some ex) pd [] vfm (computeMigrated (some ex) pd [] vfm) v,
    ?_, ?_⟩
  · simp [resolveVariants, List.getElem?_map, hv]
  · have hfind : List.find? (fun ev => ev.id == v.id) (v0 :: rest) = none := by
      rw [← hvars, List.find?_eq_none]
      intro a ha
      simpa using hid a ha
    have hcf : commonModeFallback (some ex) v
        = (v0.fileKey, v0.fileUrl, v0.fileName, v0.fileSize) := by
      simp [commonModeFallback, hvars, hfind, strOr, natOr, hk, hu, hn, hs]
    rw [hmig]
    simp [resolveOne, hmode, hcf, mkVariantObject]

/-- C10 witness: concrete common-mode update; the new variant `vNew`
inherits `"k1"`, `"u1"`, `"n1"`, size 1 from the first previous variant. -/
theorem common_mode_inherits_witness :
    ∃ w, (resolveVariants (some exW10) pdW10 [] [])[0]? = some w
      ∧ w.fileKey = "k1" ∧ w.fileUrl = "u1" ∧ w.fileName = "n1" ∧ w.fileSize = 1 :=
  common_mode_inherits_first_previous exW10 pdW10 [] 0 (mkV "vNew" "" "" "" 0 0)
    (mkV "v1" "k1" "u1" "n1" 1 0) [mkV "v2" "k1" "u1" "n1" 1 0]
    rfl rfl rfl rfl rfl rfl rfl rfl (by decide)

/-! ### Claim C3: Common→PerVariant switch -/

/-- C3 counterexample: with a per-variant upload supplied for `v1` in the
same request, the new variant `v3` still receives the previous shared key
`"k1"` from the migrated branch — the code's fallback is applied per
variant (server.js line 560 has no once-per-request gate), so it differs
from the claimed once-per-request-gated resolution at this input. -/
theorem mode_switch_gating_counterexample :
    resolveVariants (some exC3) pdC3 [] vfmC3
      ≠ resolveVariantsSpecGated (some exC3) pdC3 [] vfmC3
    ∧ ((resolveVariants (some exC3) pdC3 [] vfmC3)[1]?).map Variant.fileKey
        = some "k1"
    ∧ ((resolveVariantsSpecGated (some exC3) pdC3 [] vfmC3)[1]?).map Variant.fileKey
        = some "" :=
  ⟨by decide, by decide, by decide⟩

/-- C3 (amended): on an update switching Common→PerVariant, every variant
without its own new upload receives the single previous shared `fileKey`
(so with no new per-variant uploads at all, every finalized variant
inherits it); the fallback is gated per variant by whether that variant has
its own upload, not by a once-per-request check, so it also fires when
uploads were supplied for other variants. -/
theorem common_to_variant_inherits_shared_key (ex : SavedProduct) (pd : ProductData)
    (cf : List UploadedFile) (vfm : List VariantUpload) (i : Nat)
    (v v0 : Variant) (rest : List Variant) (k : String)
    (hex : ex.fileType = "commonFile") (hmode : pd.fileType ≠ "commonFile")
    (hvars : ex.variants = v0 :: rest) (hk0 : v0.fileKey = k) (hk : k ≠ "")
    (hshared : ∀ vv ∈ ex.variants, vv.fileKey = k)
    (hv : pd.variants[i]? = some v)
    (hnoup : ∀ vm ∈ vfm, vm.id = v.id → vm.file = []) :
    ∃ w, (resolveVariants (some ex) pd cf vfm)[i]? = some w ∧ w.fileKey = k := by
  refine ⟨resolveOne (some ex) pd cf vfm (computeMigrated (some ex) pd cf vfm) v,
    ?_, ?_⟩
  · simp [resolveVariants, List.getElem?_map, hv]
  · have hsw : commonToVariantSwitch (some ex) pd = true := by
      simp [commonToVariantSwitch, modeOf, hex, hmode]
    have hpn : perVariantNoUpload (some ex) pd v = migratedFromCommonQuad (some ex) v := by
      simp [perVariantNoUpload, hsw]
    have hkey : (migratedFromCommonQuad (some ex) v).1 = k := by
      simp [migratedFromCommonQuad, hvars, hk0, strOr, hk]
    cases hfind : vfm.find? (fun vm => vm.id == v.id) with
    | none =>
      simp [resolveOne, hmode, hfind, hpn, mkVariantObject, hkey]
    | some vm =>
      have hvm : vm.file = [] := by
        refine hnoup vm (List.mem_of_find?_eq_some hfind) ?_
        have hp := List.find?_some hfind
        simpa using hp
      simp [resolveOne, hmode, hfind, hvm, hpn, mkVariantObject, hkey]

/-- C3 witness: concrete update switching to per-variant mode with an
upload for `v1` only; the uploadless variant `v3` inherits `"k1"`. -/
theorem common_to_variant_inherits_witness :
    ∃ w, (resolveVariants (some exC3) pdC3 [] vfmC3)[1]? = some w
      ∧ w.fileKey = "k1" :=
  common_to_variant_inherits_shared_key exC3 pdC3 [] vfmC3 1
    (mkV "v3" "" "" "" 0 0) (mkV "v1" "k1" "u1" "n1" 1 0)
    [mkV "v2" "k1" "u1" "n1" 1 0] "k1"
    rfl (by decide) rfl rfl (by decide) (by decide) rfl (by decide)

/-! ### Claim C4: idempotence of a no-op save -/

/-- C4 counterexample: a creation where the single submitted variant has a
full non-empty file quadruple and no uploads are supplied, yet the
finalized list differs from the input because `totalVariants = 1` rewrites
the variant's title and image with the product's. -/
theorem noop_save_counterexample :
    (∀ v ∈ pdC4.variants, v.fileKey ≠ "")
    ∧ resolveVariants none pdC4 [] [] ≠ pdC4.variants :=
  ⟨by decide, by decide⟩

/-- C4 (amended): the no-op save is idempotent under the further
conditions the code forces: no mode-switch migration applies, every
variant's `fileUrl`/`fileName` are non-empty and `fileSize` non-zero as
well, and when `totalVariants = 1` each variant's title and image already
equal the product's. -/
theorem noop_save_idempotent (existing : Option SavedProduct) (pd : ProductData)
    (cf : List UploadedFile) (vfm : List VariantUpload)
    (hcf : cf = [])
    (hvf : ∀ vm ∈ vfm, vm.file = [])
    (hnoswitch : ∀ ex, existing = some ex → modeOf ex.fileType = modeOf pd.fileType)
    (hfull : ∀ v ∈ pd.variants,
      v.fileKey ≠ "" ∧ v.fileUrl ≠ "" ∧ v.fileName ≠ "" ∧ v.fileSize ≠ 0)
    (htitle : pd.totalVariants = 1 →
      ∀ v ∈ pd.variants, v.title = pd.title ∧ v.image = pd.productImage) :
    resolveVariants existing pd cf vfm = pd.variants := by
  subst hcf
  have hmig : computeMigrated existing pd [] vfm = none := by
    cases existing with
    | none => rfl
    | some ex => simp [computeMigrated, hnoswitch ex rfl]
  have hsw : commonToVariantSwitch existing pd = false := by
    cases existing with
    | none => rfl
    | some ex =>
      have h := hnoswitch ex rfl
      simp [commonToVariantSwitch, h]
  apply map_eq_self_of_eq
  intro v hv
  obtain ⟨hk, hu, hn, hs⟩ := hfull v hv
  have hmk : mkVariantObject pd v (v.fileKey, v.fileUrl, v.fileName, v.fileSize) = v := by
    have ht : (if pd.totalVariants = 1 then pd.title else v.title) = v.title := by
      by_cases h1 : pd.totalVariants = 1
      · simp [h1, (htitle h1 v hv).1]
      · simp [h1]
    have hi : (if pd.totalVariants = 1 then pd.productImage else v.image) = v.image := by
      by_cases h1 : pd.totalVariants = 1
      · simp [h1, (htitle h1 v hv).2]
      · simp [h1]
    simp only [mkVariantObject, ht, hi]
  rw [hmig]
  by_cases hmode : pd.fileType = "commonFile"
  · have hcfall : commonModeFallback existing v
        = (v.fileKey, v.fileUrl, v.fileName, v.fileSize) := by
      simp [commonModeFallback, strOr, natOr, hk, hu, hn, hs]
    have hstep : resolveOne existing pd [] vfm none v
        = mkVariantObject pd v (commonModeFallback existing v) := by
      simp [resolveOne, hmode]
    rw [hstep, hcfall, hmk]
  · have hpf : perVariantFallback existing v
        = (v.fileKey, v.fileUrl, v.fileName, v.fileSize) := by
      simp [perVariantFallback, strOr, natOr, hk, hu, hn, hs]
    have hpn : perVariantNoUpload existing pd v
        = (v.fileKey, v.fileUrl, v.fileName, v.fileSize) := by
      simp [perVariantNoUpload, hsw, hpf]
    cases hfind : vfm.find? (fun vm => vm.id == v.id) with
    | none =>
      have hstep : resolveOne existing pd [] vfm none v
          = mkVariantObject pd v (perVariantNoUpload existing pd v) := by
        simp [resolveOne, hmode, hfind]
      rw [hstep, hpn, hmk]
    | some vm =>
      have hvm : vm.file = [] := hvf vm (List.mem_of_find?_eq_some hfind)
      have hstep : resolveOne existing pd [] vfm none v
          = mkVariantObject pd v (perVariantNoUpload existing pd v) := by
        simp [resolveOne, hmode, hfind, hvm]
      rw [hstep, hpn, hmk]

/-- C4 witness: concrete creation with `totalVariants = 2`, full quadruple,
no uploads; the finalized list equals the input list. -/
theorem noop_save_idempotent_witness :
    resolveVariants none pdW4 [] [] = pdW4.variants :=
  noop_save_idempotent none pdW4 [] [] rfl (by decide)
    (fun ex h => by cases h) (by decide) (by decide)

/-! ### Claim C5: atomicity of the file-field quadruple -/

/-- C5 counterexample: in the common-mode fallback, a submitted variant
with empty `fileKey` but its own non-empty `fileUrl` produces a finalized
quadruple mixing the previous variant's key/name/size with the submitted
url — it matches no single source. -/
theorem single_source_counterexample :
    vC5 ∈ pdC5.variants
    ∧ fileQuad (resolveOne (some exC5) pdC5 [] []
        (computeMigrated (some exC5) pdC5 [] []) vC5) = ("kOld", "uNew", "nOld", 9)
    ∧ quadFromSingleSource (some exC5) [] [] vC5
        (resolveOne (some exC5) pdC5 [] []
          (computeMigrated (some exC5) pdC5 [] []) vC5) = false :=
  ⟨by decide, by decide, by decide⟩

/-- C5 (amended): the new-upload branches and the migrated-file branch do
copy all four file fields from their single source (a common upload, the
variant's own upload, or the single migrated variant); only the no-change
fallback branches resolve the four fields independently per field and may
therefore combine sources. -/
theorem upload_branches_single_source (existing : Option SavedProduct)
    (pd : ProductData) (cf : List UploadedFile) (vfm : List VariantUpload)
    (migrated : Option Variant) (v : Variant) :
    (∀ u rest, pd.fileType = "commonFile" → cf = u :: rest →
      fileQuad (resolveOne existing pd cf vfm migrated v) = uploadQuad u)
    ∧ (∀ vm u rest, pd.fileType ≠ "commonFile"
        → vfm.find? (fun x => x.id == v.id) = some vm → vm.file = u :: rest →
      fileQuad (resolveOne existing pd cf vfm migrated v) = uploadQuad u)
    ∧ (∀ m, pd.fileType = "commonFile" → cf = [] → migrated = some m
        → m.fileKey ≠ "" →
      fileQuad (resolveOne existing pd cf vfm migrated v) = fileQuad m) := by
  refine ⟨?_, ?_, ?_⟩
  · intro u rest hmode hcf
    subst hcf
    simp [resolveOne, hmode, fileQuad, uploadQuad, mkVariantObject]
  · intro vm u rest hmode hfind hfile
    simp [resolveOne, hmode, hfind, hfile, fileQuad, uploadQuad, mkVariantObject]
  · intro m hmode hcf hm hkey
    subst hcf
    subst hm
    simp [resolveOne, hmode, fileQuad, mkVariantObject, bne_iff_ne, hkey]

/-- C5 witness: a concrete common-mode creation with one new common
upload; the finalized quadruple is exactly the upload's. -/
theorem upload_branches_single_source_witness :
    fileQuad (resolveOne none pdW5 [uW5] [] none (mkV "v1" "" "" "" 0 0))
      = uploadQuad uW5 :=
  (upload_branches_single_source none pdW5 [uW5] [] none
    (mkV "v1" "" "" "" 0 0)).1 uW5 [] rfl rfl

/-! ### Claim C8: tag merge idempotence -/

theorem mem_jsSetDedup {a : String} {l : List String} :
    a ∈ jsSetDedup l ↔ a ∈ l := by
  induction l with
  | nil => simp [jsSetDedup]
  | cons x l ih =>
    simp only [jsSetDedup, List.mem_cons, List.mem_filter, bne_iff_ne, ih]
    by_cases hax : a = x <;> simp [hax]

theorem nodup_jsSetDedup : ∀ l : List String, (jsSetDedup l).Nodup := by
  intro l
  induction l with
  | nil => simp [jsSetDedup]
  | cons x l ih =>
    simp only [jsSetDedup]
    rw [List.nodup_cons]
    constructor
    · intro hx
      rcases List.mem_filter.mp hx with ⟨-, hne⟩
      simp at hne
    · exact ih.filter _

theorem jsSetDedup_eq_self : ∀ {l : List String}, l.Nodup → jsSetDedup l = l := by
  intro l h
  induction l with
  | nil => rfl
  | cons x l ih =>
    rw [List.nodup_cons] at h
    obtain ⟨hx, hl⟩ := h
    simp only [jsSetDedup, ih hl]
    have hf : l.filter (fun b => b != x) = l := by
      apply List.filter_eq_self.mpr
      intro b hb
      simp only [bne_iff_ne, ne_eq, decide_eq_true_eq]
      exact fun hbx => hx (hbx ▸ hb)
    rw [hf]

theorem jsSetDedup_append_not_mem {a : String} : ∀ {l : List String}, a ∉ l →
    jsSetDedup (l ++ [a]) = jsSetDedup l ++ [a] := by
  intro l
  induction l with
  | nil => intro _; rfl
  | cons x l ih =>
    intro h
    have hax : a ≠ x := fun he => h (he ▸ List.mem_cons_self x l)
    have hal : a ∉ l := fun hm => h (List.mem_cons_of_mem x hm)
    simp only [List.cons_append, List.append_eq, jsSetDedup, ih hal, List.filter_append]
    simp [List.filter_cons, bne_iff_ne, hax]

theorem jsSetDedup_append_mem {a : String} : ∀ {l : List String}, a ∈ l →
    jsSetDedup (l ++ [a]) = jsSetDedup l := by
  intro l
  induction l with
  | nil => intro h; cases h
  | cons x l ih =>
    intro h
    by_cases hax : a = x
    · subst hax
      by_cases hal : a ∈ l
      · simp only [List.cons_append, List.append_eq, jsSetDedup, ih hal]
      · simp only [List.cons_append, List.append_eq, jsSetDedup,
          jsSetDedup_append_not_mem hal, List.filter_append]
        have hone : [a].filter (fun b => b != a) = [] := by simp
        rw [hone, List.append_nil]
    · have hal : a ∈ l := by
        rcases List.mem_cons.mp h with h1 | h1
        · exact absurd h1 hax
        · exact h1
      simp only [List.cons_append, List.append_eq, jsSetDedup, ih hal]

theorem jsSetDedup_append_subset : ∀ {ts l : List String}, (∀ a ∈ ts, a ∈ l) →
    jsSetDedup (l ++ ts) = jsSetDedup l := by
  intro ts
  induction ts using List.reverseRecOn with
  | nil => intro l _; simp
  | append_singleton ts a ih =>
    intro l h
    have ha : a ∈ l ++ ts :=
      List.mem_append.mpr (Or.inl (h a (List.mem_append_right _ (List.mem_singleton.mpr rfl))))
    rw [← List.append_assoc, jsSetDedup_append_mem ha]
    exact ih (fun b hb => h b (List.mem_append_left _ hb))

/-- C8: `updateProductTagsInShopify` reads the current tags, unions them
with the tags to add, performs the write mutation only when the union
differs from the current tags (returning success with the merged set when
nothing changed), and a second call with the same tags to add performs no
mutation and reports the same set. -/
theorem mergeTags_idempotent (cur ts : List String) (hts : ts ≠ []) :
    ((updateProductTagsInShopify cur ts).mutated = true
        → (updateProductTagsInShopify cur ts).tags ≠ cur)
    ∧ ((updateProductTagsInShopify cur ts).mutated = false
        → (updateProductTagsInShopify cur ts).status = true
          ∧ (updateProductTagsInShopify cur ts).finalTags = cur)
    ∧ (updateProductTagsInShopify
        (updateProductTagsInShopify cur ts).finalTags ts).mutated = false
    ∧ (updateProductTagsInShopify
        (updateProductTagsInShopify cur ts).finalTags ts).status = true
    ∧ (updateProductTagsInShopify
          (updateProductTagsInShopify cur ts).finalTags ts).tags
        = (updateProductTagsInShopify cur ts).tags := by
  have hne : ts.isEmpty = false := by
    cases ts with
    | nil => exact absurd rfl hts
    | cons a l => rfl
  by_cases hcond : (jsSetDedup (cur ++ ts)).length = cur.length
      ∧ ∀ t ∈ jsSetDedup (cur ++ ts), t ∈ cur
  · have ho1 : updateProductTagsInShopify cur ts
        = { status := true, tags := jsSetDedup (cur ++ ts), mutated := false
            finalTags := cur } := by
      simp only [updateProductTagsInShopify, hne, Bool.false_eq_true, if_false]
      rw [if_pos hcond]
    refine ⟨?_, ?_, ?_, ?_, ?_⟩
    · intro h
      rw [ho1] at h
      simp at h
    · intro _
      rw [ho1]
      exact ⟨rfl, rfl⟩
    · simp [ho1]
    · simp [ho1]
    · simp [ho1]
  · have ho1 : updateProductTagsInShopify cur ts
        = { status := true, tags := jsSetDedup (cur ++ ts), mutated := true
            finalTags := jsSetDedup (cur ++ ts) } := by
      simp only [updateProductTagsInShopify, hne, Bool.false_eq_true, if_false]
      rw [if_neg hcond]
    have hsub : ∀ a ∈ ts, a ∈ jsSetDedup (cur ++ ts) :=
      fun a ha => mem_jsSetDedup.mpr (List.mem_append_right _ ha)
    have hu2 : jsSetDedup (jsSetDedup (cur ++ ts) ++ ts) = jsSetDedup (cur ++ ts) := by
      rw [jsSetDedup_append_subset hsub, jsSetDedup_eq_self (nodup_jsSetDedup _)]
    have ho2 : updateProductTagsInShopify (jsSetDedup (cur ++ ts)) ts
        = { status := true, tags := jsSetDedup (cur ++ ts), mutated := false
            finalTags := jsSetDedup (cur ++ ts) } := by
      simp only [updateProductTagsInShopify, hne, Bool.false_eq_true, if_false, hu2]
      rw [if_pos (by simp)]
    refine ⟨?_, ?_, ?_, ?_, ?_⟩
    · intro _ heq
      rw [ho1] at heq
      simp only at heq
      exact hcond ⟨by rw [heq], fun t ht => heq ▸ ht⟩
    · intro h
      rw [ho1] at h
      simp at h
    · simp [ho1, ho2]
    · simp [ho1, ho2]
    · simp [ho1, ho2]

/-- C8 witness: a concrete double call with the same tags to add; the
second call mutates nothing and reports the same set. -/
theorem mergeTags_idempotent_witness :
    ((updateProductTagsInShopify ["a"] ["b"]).mutated = true
        → (updateProductTagsInShopify ["a"] ["b"]).tags ≠ ["a"])
    ∧ ((updateProductTagsInShopify ["a"] ["b"]).mutated = false
        → (updateProductTagsInShopify ["a"] ["b"]).status = true
          ∧ (updateProductTagsInShopify ["a"] ["b"]).finalTags = ["a"])
    ∧ (updateProductTagsInShopify
        (updateProductTagsInShopify ["a"] ["b"]).finalTags ["b"]).mutated = false
    ∧ (updateProductTagsInShopify
        (updateProductTagsInShopify ["a"] ["b"]).finalTags ["b"]).status = true
    ∧ (updateProductTagsInShopify
          (updateProductTagsInShopify ["a"] ["b"]).finalTags ["b"]).tags
        = (updateProductTagsInShopify ["a"] ["b"]).tags :=
  mergeTags_idempotent ["a"] ["b"] (by decide)
